import Mathlib

/-!
Shallow embedding of the room-availability ingestion pipeline of `scrape.py`
(umd_api repository): the per-room availability fetcher
`fetch_single_room_availability`, the concurrent fetch orchestrator
`fetch_all_rooms_availability`, the SQLite store `store_availability_to_db`,
and the `__main__` entry point.

Modelling conventions:
  * The outcome of the outbound HTTP request plus JSON parse is an explicit
    `FetchOutcome` value: either the parsed response data or one of the three
    exception classes caught by the source (`requests.exceptions.RequestException`,
    `json.JSONDecodeError`, any other `Exception`).  The fetcher is then a total
    function on that outcome, mirroring the `try/except` structure of the source;
    totality of the Lean function expresses that the source never raises past
    this boundary.
  * JSON leaf values reaching the record dictionaries are modelled as strings;
    a field absent from the upstream JSON is `Option.none` (Python `dict.get`
    with a default).
  * Python `print` calls are collected into a `List String` log, in program
    order; f-string interpolation becomes string concatenation.
  * Thread-pool completion order is modelled by passing the list of rooms in
    an arbitrary completion order (a permutation of the submitted list).
  * The SQLite database is `DbState := Option (List Row)`: `none` when the
    `room_availability` table does not exist, `some rows` when it holds `rows`.
    `DROP TABLE IF EXISTS` followed by `CREATE TABLE` sets the state to
    `some []`; under Python 3.6+ `sqlite3` semantics DDL statements execute in
    autocommit mode, so these mutations take effect even on the early-return
    path that never calls `commit`.  The auto-increment surrogate key adds no
    information and is left implicit in the row position.
-/

namespace Scrape

/-- One entry of the room directory artifact `room_ids.json`: a dictionary
with `id` and `name` keys. -/
structure RoomRef where
  id : Nat
  name : String
deriving DecidableEq, Repr

/-- One item of a subject in the upstream availability response.  Each field
is `none` when the corresponding key (`itemName`, `start`, `end`, `type_id`,
`itemId2`) is absent. -/
structure Item where
  itemName : Option String
  start : Option String
  end_ : Option String
  type_id : Option String
  itemId2 : Option String
deriving DecidableEq, Repr

/-- One entry of the `subjects` array of the upstream response: an optional
`item_date` key and an optional `items` array. -/
structure Subject where
  item_date : Option String
  items : Option (List Item)
deriving DecidableEq, Repr

/-- The parsed JSON body of a successful upstream response: an optional
`subjects` array. -/
structure AvailData where
  subjects : Option (List Subject)
deriving DecidableEq, Repr

/-- The result of `requests.get` + `raise_for_status` + `response.json()` for
one room, as discriminated by the `except` clauses of
`fetch_single_room_availability`: parsed data on success, otherwise one of
the three caught exception classes. -/
inductive FetchOutcome where
  | success (data : AvailData)
  | requestException (e : String)
  | jsonDecodeError
  | otherError (e : String)
deriving DecidableEq, Repr

/-- The record dictionary appended by the inner loop of
`fetch_single_room_availability`; all values except `room_id` are the raw
strings taken from the JSON item (or the `"N/A"` default). -/
structure AvailabilityRecord where
  room_id : Nat
  date : String
  event_name : String
  time_start : String
  time_end : String
  status : String
  additional_details : String
deriving DecidableEq, Repr

/-- The records produced from one subject: one per element of its `items`
array (empty list when the `items` key is absent), each tagged with the
queried `space_id` and the subject's `item_date` (empty string when absent). -/
def recordsOfSubject (space_id : Nat) (subject : Subject) : List AvailabilityRecord :=
  (subject.items.getD []).map (fun item =>
    { room_id := space_id
      date := subject.item_date.getD ""
      event_name := item.itemName.getD "N/A"
      time_start := item.start.getD "N/A"
      time_end := item.end_.getD "N/A"
      status := item.type_id.getD "N/A"
      additional_details := item.itemId2.getD "N/A" })

/-- The nested loop of `fetch_single_room_availability` over the `subjects`
array, appending the records of each subject in order. -/
def recordsOfData (space_id : Nat) : List Subject → List AvailabilityRecord
  | [] => []
  | subject :: rest => recordsOfSubject space_id subject ++ recordsOfData space_id rest

/-- Embedding of `fetch_single_room_availability` (scrape.py lines 9-64),
as a function of the request outcome: on success it flattens the nested
response into one record per item; on any of the three caught exception
classes it prints a message naming the room and returns the empty list.
Returns the record list together with the printed log lines. -/
def fetch_single_room_availability (space_id : Nat) (outcome : FetchOutcome) :
    List AvailabilityRecord × List String :=
  match outcome with
  | .success data => (recordsOfData space_id (data.subjects.getD []), [])
  | .requestException e =>
      ([], ["Request error for room " ++ toString space_id ++ ": " ++ e])
  | .jsonDecodeError =>
      ([], ["JSON decode error for room " ++ toString space_id])
  | .otherError e =>
      ([], ["Unexpected error for room " ++ toString space_id ++ ": " ++ e])

/-- Natural number denoted by a list of decimal digit characters (most
significant first); `0` for the empty list. -/
def natOfDigits (cs : List Char) : Nat :=
  cs.foldl (fun n c => 10 * n + (c.toNat - 48)) 0

/-- Unsigned part of Python `float(s)` on a plain decimal literal: digits,
optionally followed by a point and digits, at least one digit overall.
(The modelled subset omits exponents, `inf`/`nan`, underscores and
surrounding whitespace, none of which occur in this pipeline.) -/
def pyFloatCore (cs : List Char) : Option Rat :=
  let ip := cs.takeWhile (fun c => c.isDigit)
  match cs.dropWhile (fun c => c.isDigit) with
  | [] => if ip.isEmpty then none else some (natOfDigits ip)
  | '.' :: fp =>
      if fp.all (fun c => c.isDigit) && (!ip.isEmpty || !fp.isEmpty) then
        some ((natOfDigits ip : Rat) + (natOfDigits fp : Rat) / ((10 : Rat) ^ fp.length))
      else none
  | _ => none

/-- Model of Python `float(s)` for strings: optional sign followed by a
decimal literal; `none` models the `ValueError` raised on anything else. -/
def pyFloat (s : String) : Option Rat :=
  match s.toList with
  | '-' :: cs => (pyFloatCore cs).map (fun q => -q)
  | '+' :: cs => pyFloatCore cs
  | cs => pyFloatCore cs

/-- Model of Python `int(s)` for strings: optional sign followed by one or
more decimal digits; `none` models the `ValueError` raised on anything else. -/
def pyInt (s : String) : Option Int :=
  match s.toList with
  | '-' :: cs => if !cs.isEmpty && cs.all (fun c => c.isDigit) then
      some (-(natOfDigits cs : Int)) else none
  | '+' :: cs => if !cs.isEmpty && cs.all (fun c => c.isDigit) then
      some (natOfDigits cs : Int) else none
  | cs => if !cs.isEmpty && cs.all (fun c => c.isDigit) then
      some (natOfDigits cs : Int) else none

/-- One row of the `room_availability` table (the surrogate `id` column is
implicit in the row position).  `time_start`/`time_end` are REAL-or-NULL,
`status` INTEGER-or-NULL. -/
structure Row where
  room_id : Nat
  date : String
  event_name : String
  time_start : Option Rat
  time_end : Option Rat
  status : Option Int
  additional_details : String
deriving DecidableEq, Repr

/-- State of the SQLite database `room_availability.db`: `none` when the
`room_availability` table does not exist, `some rows` when it exists and
holds `rows`. -/
abbrev DbState := Option (List Row)

/-- Rows of the `room_availability` table in a database state (empty when
the table does not exist). -/
def rowsOf (db : DbState) : List Row :=
  db.getD []

/-- Coercion of `time_start`/`time_end` in `store_availability_to_db`:
`float(v) if v != "N/A" else None`; a failed conversion is the
`ValueError` message. -/
def coerceFloat (s : String) : Except String (Option Rat) :=
  if s = "N/A" then .ok none
  else
    match pyFloat s with
    | some q => .ok (some q)
    | none => .error ("could not convert string to float: " ++ s)

/-- Coercion of `status` in `store_availability_to_db`:
`int(v) if v != "N/A" else None`; a failed conversion is the
`ValueError` message. -/
def coerceInt (s : String) : Except String (Option Int) :=
  if s = "N/A" then .ok none
  else
    match pyInt s with
    | some n => .ok (some n)
    | none => .error ("invalid literal for int() with base 10: " ++ s)

/-- Body of the record-preparation loop of `store_availability_to_db`
(lines 138-153): coerce the three typed fields, keeping the rest verbatim;
an error is the first `ValueError` raised.  (With the fixed-shape record
type the `KeyError` arm of the source's `except` clause is unrepresentable.) -/
def coerceItem (item : AvailabilityRecord) : Except String Row :=
  match coerceFloat item.time_start with
  | .error e => .error e
  | .ok time_start =>
    match coerceFloat item.time_end with
    | .error e => .error e
    | .ok time_end =>
      match coerceInt item.status with
      | .error e => .error e
      | .ok status =>
        .ok { room_id := item.room_id
              date := item.date
              event_name := item.event_name
              time_start := time_start
              time_end := time_end
              status := status
              additional_details := item.additional_details }

/-- Display of a record dictionary inside the warning message (stands in for
the Python dict repr printed by the source; its exact format is incidental). -/
def reprAvail (item : AvailabilityRecord) : String :=
  "room_id=" ++ toString item.room_id ++ ", date=" ++ item.date ++
    ", event_name=" ++ item.event_name ++ ", time_start=" ++ item.time_start ++
    ", time_end=" ++ item.time_end ++ ", status=" ++ item.status ++
    ", additional_details=" ++ item.additional_details

/-- The record-preparation loop of `store_availability_to_db` (lines
136-155): coerce each record in order; a record whose coercion raises is
skipped with a printed warning.  Returns the prepared rows and the warnings. -/
def coerceRecords : List AvailabilityRecord → List Row × List String
  | [] => ([], [])
  | item :: rest =>
    let tail := coerceRecords rest
    match coerceItem item with
    | .ok r => (r :: tail.1, tail.2)
    | .error e =>
        (tail.1, ("Error processing item " ++ reprAvail item ++ ": " ++ e) :: tail.2)

/-- Embedding of `store_availability_to_db` (scrape.py lines 101-173) as a
transformer of the database state, also returning the printed log lines:
an empty batch is logged and leaves the database untouched; otherwise the
table is unconditionally dropped and recreated (DDL, autocommitted), the
batch is coerced row by row, and the surviving rows, if any, are inserted
and committed. -/
def store_availability_to_db (availability_data : List AvailabilityRecord)
    (db : DbState) : DbState × List String :=
  if availability_data.isEmpty then
    (db, ["No availability data to store."])
  else
    -- DROP TABLE IF EXISTS room_availability; CREATE TABLE room_availability (...)
    let records := coerceRecords availability_data
    if records.1.isEmpty then
      (some [], records.2 ++ ["No records to insert."])
    else
      (some records.1,
        records.2 ++
          ["Inserted " ++ toString records.1.length ++ " records into the database."])

/-- The fan-in loop of `fetch_all_rooms_availability` (lines 88-95): walk
the submitted futures in completion order (`completed` is the submitted room
list in an arbitrary order), extend the shared buffer with each non-empty
per-room result, and collect the printed log lines.  `outcome` maps a room
id to the outcome of its request.  (The defensive `except` around
`future.result()` is dead in the model because the fetcher is total.) -/
def collectAvailability (outcome : Nat → FetchOutcome) :
    List RoomRef → List AvailabilityRecord × List String
  | [] => ([], [])
  | room :: rest =>
    let this := fetch_single_room_availability room.id (outcome room.id)
    let tail := collectAvailability outcome rest
    ((if this.1.isEmpty then [] else this.1) ++ tail.1, this.2 ++ tail.2)

/-- Embedding of `fetch_all_rooms_availability` (lines 66-98): collect all
per-room results into one batch, then store it. -/
def fetch_all_rooms_availability (completed : List RoomRef)
    (outcome : Nat → FetchOutcome) (db : DbState) : DbState × List String :=
  let collected := collectAvailability outcome completed
  let stored := store_availability_to_db collected.1 db
  (stored.1, collected.2 ++ stored.2)

/-- The result of reading and JSON-parsing `room_ids.json`, as discriminated
by the `except` clauses of the `__main__` block. -/
inductive ArtifactOutcome where
  | fileNotFound
  | jsonDecodeError
  | parsed (rooms : List RoomRef)
deriving DecidableEq, Repr

/-- The room list and log lines produced by the artifact-loading `try` block
of `__main__` (lines 178-186): both failure arms report and fall back to the
empty list. -/
def roomsOfArtifact : ArtifactOutcome → List RoomRef × List String
  | .fileNotFound => ([], ["The file \x27room_ids.json\x27 was not found."])
  | .jsonDecodeError => ([], ["Error decoding \x27room_ids.json\x27. Ensure it is valid JSON."])
  | .parsed rooms => (rooms, [])

/-- Observable trace of one `__main__` run: final database state, printed
log, number of fetch tasks submitted to the pool, and whether
`store_availability_to_db` was invoked at all. -/
structure RunTrace where
  db : DbState
  log : List String
  fetchTasks : Nat
  storeInvoked : Bool
deriving DecidableEq, Repr

/-- Embedding of the `__main__` block (scrape.py lines 176-192): load the
room directory artifact; when the loaded list is non-empty run the pipeline
(`completed` gives the thread-pool completion order), otherwise print
"No room IDs to process." and stop without ever invoking the store. -/
def mainRun (artifact : ArtifactOutcome) (completed : List RoomRef)
    (outcome : Nat → FetchOutcome) (db : DbState) : RunTrace :=
  let loaded := roomsOfArtifact artifact
  if loaded.1.isEmpty then
    { db := db
      log := loaded.2 ++ ["No room IDs to process."]
      fetchTasks := 0
      storeInvoked := false }
  else
    let piped := fetch_all_rooms_availability completed outcome db
    { db := piped.1
      log := loaded.2 ++ piped.2
      fetchTasks := completed.length
      storeInvoked := true }

/-- Total number of items across all entries of the `subjects` array of a
response (the quantity the spec counts records against). -/
def totalItems (data : AvailData) : Nat :=
  ((data.subjects.getD []).map (fun s => (s.items.getD []).length)).sum

end Scrape

namespace Scrape

/-! ### Helper lemmas -/

theorem extend_guard_eq {α : Type} (l : List α) :
    (if l.isEmpty then ([] : List α) else l) = l := by
  cases l <;> simp

theorem recordsOfSubject_room_id (space_id : Nat) (subject : Subject)
    (r : AvailabilityRecord) (h : r ∈ recordsOfSubject space_id subject) :
    r.room_id = space_id := by
  simp only [recordsOfSubject, List.mem_map] at h
  obtain ⟨item, -, rfl⟩ := h
  rfl

theorem recordsOfData_room_id (space_id : Nat) (l : List Subject)
    (r : AvailabilityRecord) (h : r ∈ recordsOfData space_id l) :
    r.room_id = space_id := by
  induction l with
  | nil => simp [recordsOfData] at h
  | cons subject rest ih =>
    simp only [recordsOfData, List.mem_append] at h
    rcases h with h | h
    · exact recordsOfSubject_room_id space_id subject r h
    · exact ih h

theorem fetch_room_id (space_id : Nat) (outcome : FetchOutcome)
    (r : AvailabilityRecord)
    (h : r ∈ (fetch_single_room_availability space_id outcome).1) :
    r.room_id = space_id := by
  cases outcome with
  | success data => exact recordsOfData_room_id space_id _ r h
  | requestException e => simp [fetch_single_room_availability] at h
  | jsonDecodeError => simp [fetch_single_room_availability] at h
  | otherError e => simp [fetch_single_room_availability] at h

theorem recordsOfData_length (space_id : Nat) (l : List Subject) :
    (recordsOfData space_id l).length
      = (l.map (fun s => (s.items.getD []).length)).sum := by
  induction l with
  | nil => rfl
  | cons subject rest ih =>
    simp [recordsOfData, recordsOfSubject, ih]

theorem fetch_success_length (space_id : Nat) (data : AvailData) :
    (fetch_single_room_availability space_id (.success data)).1.length
      = totalItems data := by
  simp [fetch_single_room_availability, totalItems, recordsOfData_length]

theorem coerceRecords_fst (l : List AvailabilityRecord) :
    (coerceRecords l).1 = l.filterMap (fun i => (coerceItem i).toOption) := by
  induction l with
  | nil => rfl
  | cons item rest ih =>
    simp only [coerceRecords, List.filterMap_cons]
    cases h : coerceItem item <;> simp [h, Except.toOption, ih]

theorem coerceItem_room_id (item : AvailabilityRecord) (r : Row)
    (h : coerceItem item = .ok r) : r.room_id = item.room_id := by
  unfold coerceItem at h
  split at h <;> try exact Except.noConfusion h
  split at h <;> try exact Except.noConfusion h
  split at h <;> try exact Except.noConfusion h
  injection h with h2
  rw [← h2]

theorem collect_mem (outcome : Nat → FetchOutcome) (l : List RoomRef)
    (r : AvailabilityRecord) (h : r ∈ (collectAvailability outcome l).1) :
    ∃ room ∈ l, r ∈ (fetch_single_room_availability room.id (outcome room.id)).1 := by
  induction l with
  | nil => simp [collectAvailability] at h
  | cons room rest ih =>
    simp only [collectAvailability, extend_guard_eq, List.mem_append] at h
    rcases h with h | h
    · exact ⟨room, List.mem_cons_self .., h⟩
    · obtain ⟨room2, hmem, hr⟩ := ih h
      exact ⟨room2, List.mem_cons_of_mem _ hmem, hr⟩

theorem collect_length (outcome : Nat → FetchOutcome) (l : List RoomRef) :
    (collectAvailability outcome l).1.length
      = (l.map (fun room =>
          (fetch_single_room_availability room.id (outcome room.id)).1.length)).sum := by
  induction l with
  | nil => rfl
  | cons room rest ih =>
    simp only [collectAvailability, extend_guard_eq, List.length_append, List.map_cons,
      List.sum_cons, ih]

theorem collect_log_mem (outcome : Nat → FetchOutcome) (l : List RoomRef)
    (room : RoomRef) (hroom : room ∈ l) (line : String)
    (hline : line ∈ (fetch_single_room_availability room.id (outcome room.id)).2) :
    line ∈ (collectAvailability outcome l).2 := by
  induction l with
  | nil => simp at hroom
  | cons room2 rest ih =>
    simp only [collectAvailability, List.mem_append]
    rcases List.mem_cons.mp hroom with rfl | hm
    · exact Or.inl hline
    · exact Or.inr (ih hm)

end Scrape

namespace Scrape

theorem coerceItem_fields (item : AvailabilityRecord) (r : Row)
    (h : coerceItem item = .ok r) :
    coerceFloat item.time_start = .ok r.time_start ∧
    coerceFloat item.time_end = .ok r.time_end ∧
    coerceInt item.status = .ok r.status := by
  unfold coerceItem at h
  split at h <;> try exact Except.noConfusion h
  split at h <;> try exact Except.noConfusion h
  split at h <;> try exact Except.noConfusion h
  injection h with h2
  subst h2
  refine ⟨?_, ?_, ?_⟩ <;> assumption

theorem coerceFloat_sentinel (s : String) (v : Option Rat)
    (h : coerceFloat s = .ok v) (hs : s = "N/A") : v = none := by
  subst hs
  simp only [coerceFloat, if_pos rfl] at h
  exact (Except.ok.injEq _ _ ▸ h).symm

theorem coerceInt_sentinel (s : String) (v : Option Int)
    (h : coerceInt s = .ok v) (hs : s = "N/A") : v = none := by
  subst hs
  simp only [coerceInt, if_pos rfl] at h
  exact (Except.ok.injEq _ _ ▸ h).symm

theorem mem_coerceRecords (batch : List AvailabilityRecord)
    (item : AvailabilityRecord) (r : Row)
    (hmem : item ∈ batch) (hco : coerceItem item = .ok r) :
    r ∈ (coerceRecords batch).1 := by
  rw [coerceRecords_fst]
  exact List.mem_filterMap.mpr ⟨item, hmem, by simp [hco, Except.toOption]⟩

theorem store_rows_eq (batch : List AvailabilityRecord) (db : DbState)
    (hb : batch.isEmpty = false) :
    (store_availability_to_db batch db).1 = some (coerceRecords batch).1 := by
  unfold store_availability_to_db
  rw [hb]
  cases h : (coerceRecords batch).1 <;> simp [h]

theorem store_log_eq (batch : List AvailabilityRecord) (db : DbState)
    (hb : batch.isEmpty = false) :
    ∃ final,
      (store_availability_to_db batch db).2 = (coerceRecords batch).2 ++ [final] := by
  unfold store_availability_to_db
  rw [hb]
  cases h : (coerceRecords batch).1 <;> simp [h]

theorem mem_store_rows (batch : List AvailabilityRecord) (db : DbState)
    (item : AvailabilityRecord) (r : Row)
    (hmem : item ∈ batch) (hco : coerceItem item = .ok r) :
    r ∈ rowsOf (store_availability_to_db batch db).1 := by
  have hb : batch.isEmpty = false := by
    cases batch
    · simp at hmem
    · simp
  rw [store_rows_eq batch db hb]
  exact mem_coerceRecords batch item r hmem hco

/-! ### Claims -/

/-- C1: for every room id and every failed fetch outcome (request exception
covering network errors, timeouts and non-2xx statuses; JSON decode error;
or any other exception during parsing), `fetch_single_room_availability`
returns the empty record list and prints exactly one message containing the
room id.  The function being total on `FetchOutcome` embeds the guarantee
that no exception propagates past this boundary. -/
theorem c1_fetch_failure_logged_and_empty (space_id : Nat) (outcome : FetchOutcome)
    (hfail : ∀ data, outcome ≠ .success data) :
    (fetch_single_room_availability space_id outcome).1 = [] ∧
    ∃ pre post,
      (fetch_single_room_availability space_id outcome).2
        = [pre ++ toString space_id ++ post] := by
  cases outcome with
  | success data => exact absurd rfl (hfail data)
  | requestException e =>
      exact ⟨rfl, "Request error for room ", ": " ++ e, by
        simp [fetch_single_room_availability, String.append_assoc]⟩
  | jsonDecodeError =>
      exact ⟨rfl, "JSON decode error for room ", "", by
        simp [fetch_single_room_availability]⟩
  | otherError e =>
      exact ⟨rfl, "Unexpected error for room ", ": " ++ e, by
        simp [fetch_single_room_availability, String.append_assoc]⟩

/-- Witness for C1 at a concrete failing outcome. -/
theorem c1_witness :
    (fetch_single_room_availability 101 (.requestException "timeout")).1 = [] ∧
    ∃ pre post,
      (fetch_single_room_availability 101 (.requestException "timeout")).2
        = [pre ++ toString 101 ++ post] :=
  c1_fetch_failure_logged_and_empty 101 (.requestException "timeout")
    (fun _ h => FetchOutcome.noConfusion h)

/-- C2: for every successful upstream response, the record list returned by
`fetch_single_room_availability` has exactly one entry per element of each
subject's `items` array, i.e. its length is the item count summed over the
response's `subjects` array. -/
theorem c2_success_record_count (space_id : Nat) (data : AvailData) :
    (fetch_single_room_availability space_id (.success data)).1.length
      = totalItems data :=
  fetch_success_length space_id data

/-- C3: a record whose `time_start` is the sentinel `"N/A"` is stored with a
null `time_start` (and in particular not with the number zero); likewise for
`time_end` and for `status`, and the coerced row is among the rows the store
leaves in the table. -/
theorem c3_sentinel_stored_as_null (batch : List AvailabilityRecord)
    (db : DbState) (item : AvailabilityRecord) (r : Row)
    (hmem : item ∈ batch) (hco : coerceItem item = .ok r) :
    (item.time_start = "N/A" → r.time_start = none ∧ r.time_start ≠ some 0) ∧
    (item.time_end = "N/A" → r.time_end = none ∧ r.time_end ≠ some 0) ∧
    (item.status = "N/A" → r.status = none ∧ r.status ≠ some 0) ∧
    r ∈ rowsOf (store_availability_to_db batch db).1 := by
  obtain ⟨h1, h2, h3⟩ := coerceItem_fields item r hco
  refine ⟨?_, ?_, ?_, mem_store_rows batch db item r hmem hco⟩
  · intro hs
    have := coerceFloat_sentinel _ _ h1 hs
    exact ⟨this, by simp [this]⟩
  · intro hs
    have := coerceFloat_sentinel _ _ h2 hs
    exact ⟨this, by simp [this]⟩
  · intro hs
    have := coerceInt_sentinel _ _ h3 hs
    exact ⟨this, by simp [this]⟩

/-- Witness for C3 at a concrete all-sentinel record. -/
theorem c3_witness :
    let item : AvailabilityRecord :=
      { room_id := 101, date := "2024-11-14", event_name := "CS101",
        time_start := "N/A", time_end := "N/A", status := "N/A",
        additional_details := "A1" }
    let r : Row :=
      { room_id := 101, date := "2024-11-14", event_name := "CS101",
        time_start := none, time_end := none, status := none,
        additional_details := "A1" }
    (item.time_start = "N/A" → r.time_start = none ∧ r.time_start ≠ some 0) ∧
    (item.time_end = "N/A" → r.time_end = none ∧ r.time_end ≠ some 0) ∧
    (item.status = "N/A" → r.status = none ∧ r.status ≠ some 0) ∧
    r ∈ rowsOf (store_availability_to_db [item] none).1 :=
  c3_sentinel_stored_as_null [_] none _ _ (List.mem_singleton.mpr rfl) rfl

/-- C4: for every non-empty batch, running `store_availability_to_db` twice
in succession leaves the database in the same state (in particular the same
row count) as running it once: the table is unconditionally dropped and
recreated, so rows are replaced, never appended. -/
theorem c4_store_idempotent (batch : List AvailabilityRecord) (db : DbState)
    (h : batch ≠ []) :
    (store_availability_to_db batch
        ((store_availability_to_db batch db).1)).1
      = (store_availability_to_db batch db).1 ∧
    (rowsOf (store_availability_to_db batch
        ((store_availability_to_db batch db).1)).1).length
      = (rowsOf (store_availability_to_db batch db).1).length := by
  have hb : batch.isEmpty = false := by
    cases batch
    · exact absurd rfl h
    · simp
  have heq := store_rows_eq batch db hb
  have heq2 := store_rows_eq batch ((store_availability_to_db batch db).1) hb
  exact ⟨heq2.trans heq.symm, by rw [heq2, heq]⟩

/-- Witness for C4 at a concrete one-record batch. -/
theorem c4_witness :
    let batch : List AvailabilityRecord :=
      [{ room_id := 101, date := "2024-11-14", event_name := "CS101",
         time_start := "9.5", time_end := "10", status := "2",
         additional_details := "A1" }]
    (store_availability_to_db batch
        ((store_availability_to_db batch none).1)).1
      = (store_availability_to_db batch none).1 ∧
    (rowsOf (store_availability_to_db batch
        ((store_availability_to_db batch none).1)).1).length
      = (rowsOf (store_availability_to_db batch none).1).length :=
  c4_store_idempotent _ none (by decide)

end Scrape

namespace Scrape

theorem coerceRecords_warning (l : List AvailabilityRecord)
    (item : AvailabilityRecord) (e : String)
    (hmem : item ∈ l) (herr : coerceItem item = .error e) :
    ("Error processing item " ++ reprAvail item ++ ": " ++ e)
      ∈ (coerceRecords l).2 := by
  induction l with
  | nil => simp at hmem
  | cons item2 rest ih =>
    rcases List.mem_cons.mp hmem with rfl | hm
    · simp only [coerceRecords, herr]
      exact List.mem_cons_self ..
    · simp only [coerceRecords]
      cases h : coerceItem item2
      · exact List.mem_cons_of_mem _ (ih hm)
      · exact ih hm

/-- C5: a record one of whose typed fields holds a non-numeric value other
than the sentinel `"N/A"` (so its coercion raises `ValueError`) is dropped
by `store_availability_to_db` with a printed warning, while the rows left in
the table are exactly the coercions of the records that convert cleanly —
in particular every other cleanly-converting record of the batch is still
inserted, so a single coercion failure never aborts the batch. -/
theorem c5_coercion_failure_isolated (batch : List AvailabilityRecord)
    (db : DbState) (item : AvailabilityRecord) (e : String)
    (hmem : item ∈ batch) (herr : coerceItem item = .error e) :
    ("Error processing item " ++ reprAvail item ++ ": " ++ e)
      ∈ (store_availability_to_db batch db).2 ∧
    rowsOf (store_availability_to_db batch db).1
      = batch.filterMap (fun i => (coerceItem i).toOption) ∧
    ∀ other r2, other ∈ batch → coerceItem other = .ok r2 →
      r2 ∈ rowsOf (store_availability_to_db batch db).1 := by
  have hb : batch.isEmpty = false := by
    cases batch
    · simp at hmem
    · simp
  refine ⟨?_, ?_, fun other r2 hmem2 hok => mem_store_rows batch db other r2 hmem2 hok⟩
  · obtain ⟨final, hlog⟩ := store_log_eq batch db hb
    rw [hlog]
    exact List.mem_append_left _ (coerceRecords_warning batch item e hmem herr)
  · rw [store_rows_eq batch db hb, coerceRecords_fst]
    rfl

/-- Witness for C5 at a concrete batch with one bad and one good record. -/
theorem c5_witness :
    let bad : AvailabilityRecord :=
      { room_id := 101, date := "2024-11-14", event_name := "CS101",
        time_start := "abc", time_end := "N/A", status := "N/A",
        additional_details := "A1" }
    let good : AvailabilityRecord :=
      { room_id := 102, date := "2024-11-14", event_name := "CS102",
        time_start := "9.5", time_end := "10", status := "2",
        additional_details := "A2" }
    ("Error processing item " ++ reprAvail bad ++ ": "
        ++ "could not convert string to float: abc")
      ∈ (store_availability_to_db [bad, good] none).2 ∧
    rowsOf (store_availability_to_db [bad, good] none).1
      = [bad, good].filterMap (fun i => (coerceItem i).toOption) ∧
    ∀ other r2, other ∈ [bad, good] → coerceItem other = .ok r2 →
      r2 ∈ rowsOf (store_availability_to_db [bad, good] none).1 :=
  c5_coercion_failure_isolated [_, _] none _ "could not convert string to float: abc"
    (List.mem_cons_self ..) rfl

/-- C6: in a run over two rooms where the first room's fetch raises a
request exception (e.g. a timeout) and the second room's fetch succeeds with
a response totalling 3 items, the batch handed to the store has exactly 3
records, each carrying the second room's id, and the log contains a line
naming the first room's id — whatever completion order the pool delivers. -/
theorem c6_timeout_isolation (roomA roomB : RoomRef) (completed : List RoomRef)
    (outcome : Nat → FetchOutcome) (e : String) (data : AvailData)
    (hperm : completed.Perm [roomA, roomB])
    (hA : outcome roomA.id = .requestException e)
    (hB : outcome roomB.id = .success data)
    (h3 : totalItems data = 3) :
    (collectAvailability outcome completed).1.length = 3 ∧
    (∀ r ∈ (collectAvailability outcome completed).1, r.room_id = roomB.id) ∧
    ∃ pre post,
      (pre ++ toString roomA.id ++ post) ∈ (collectAvailability outcome completed).2 := by
  refine ⟨?_, ?_, ?_⟩
  · rw [collect_length]
    have hsum := (hperm.map (fun room =>
      (fetch_single_room_availability room.id (outcome room.id)).1.length)).sum_eq
    rw [hsum]
    have hBlen : (fetch_single_room_availability roomB.id (outcome roomB.id)).1.length = 3 := by
      rw [hB, fetch_success_length, h3]
    have hAlen : (fetch_single_room_availability roomA.id (outcome roomA.id)).1.length = 0 := by
      rw [hA]
      rfl
    simp [hAlen, hBlen]
  · intro r hr
    obtain ⟨room, hroom, hrf⟩ := collect_mem outcome completed r hr
    rcases List.mem_cons.mp (hperm.subset hroom) with rfl | hm
    · rw [hA] at hrf
      simp [fetch_single_room_availability] at hrf
    · rcases List.mem_cons.mp hm with rfl | hm2
      · exact fetch_room_id room.id (outcome room.id) r hrf
      · simp at hm2
  · refine ⟨"Request error for room ", ": " ++ e, ?_⟩
    have hmemA : roomA ∈ completed := hperm.mem_iff.mpr (List.mem_cons_self ..)
    have := collect_log_mem outcome completed roomA hmemA
      ("Request error for room " ++ toString roomA.id ++ ": " ++ e)
      (by rw [hA]; simp [fetch_single_room_availability, String.append_assoc])
    simpa [String.append_assoc] using this

end Scrape

namespace Scrape

theorem isEmpty_false_of_ne_nil {α : Type} (l : List α) (h : l ≠ []) :
    l.isEmpty = false := by
  cases l
  · exact absurd rfl h
  · rfl

theorem rowsOf_some (rows : List Row) : rowsOf (some rows) = rows := rfl

theorem except_toOption_eq_some {ε α : Type} (x : Except ε α) (a : α)
    (h : x.toOption = some a) : x = .ok a := by
  cases x with
  | error e => simp [Except.toOption] at h
  | ok v =>
    simp only [Except.toOption, Option.some.injEq] at h
    rw [h]

/-- Witness for C6 at a concrete two-room run delivered in reversed
completion order. -/
theorem c6_witness :
    let roomA : RoomRef := { id := 1, name := "AAA" }
    let roomB : RoomRef := { id := 2, name := "BBB" }
    let data : AvailData :=
      { subjects := some
          [ { item_date := some "2024-11-14",
              items := some
                [ ⟨none, none, none, none, none⟩, ⟨none, none, none, none, none⟩ ] },
            { item_date := none, items := some [⟨none, none, none, none, none⟩] } ] }
    let outcome : Nat → FetchOutcome := fun i =>
      if i = 1 then .requestException "timeout" else .success data
    (collectAvailability outcome [roomB, roomA]).1.length = 3 ∧
    (∀ r ∈ (collectAvailability outcome [roomB, roomA]).1, r.room_id = roomB.id) ∧
    ∃ pre post,
      (pre ++ toString roomA.id ++ post)
        ∈ (collectAvailability outcome [roomB, roomA]).2 :=
  c6_timeout_isolation _ _ _ _ "timeout" _ (List.Perm.swap _ _ _) rfl rfl rfl

/-- C7 counterexample: a run whose room directory artifact parses to the
empty list prints only "No room IDs to process." — the store step is never
invoked, so contrary to the claim no store-level no-data message
("No availability data to store.") is logged; the database (here holding
one stale row) is untouched and zero fetch tasks run. -/
theorem c7_counterexample :
    let staleRow : Row :=
      { room_id := 7, date := "old", event_name := "old",
        time_start := none, time_end := none, status := none,
        additional_details := "old" }
    let t := mainRun (.parsed []) [] (fun _ => .jsonDecodeError) (some [staleRow])
    t.storeInvoked = false ∧
    t.log = ["No room IDs to process."] ∧
    ("No availability data to store." ∈ t.log → False) ∧
    t.db = some [staleRow] ∧
    t.fetchTasks = 0 :=
  ⟨rfl, rfl, by decide, rfl, rfl⟩

/-- C7 (amended): when the room directory artifact yields an empty room
list, the run submits zero fetch tasks and never invokes
`store_availability_to_db` — hence no table is created, dropped or otherwise
mutated and no store-level message is printed — and the entry point itself
logs the no-data message "No room IDs to process.". -/
theorem c7_empty_directory_no_mutation (artifact : ArtifactOutcome)
    (completed : List RoomRef) (outcome : Nat → FetchOutcome) (db : DbState)
    (h : (roomsOfArtifact artifact).1 = []) :
    (mainRun artifact completed outcome db).fetchTasks = 0 ∧
    (mainRun artifact completed outcome db).storeInvoked = false ∧
    (mainRun artifact completed outcome db).db = db ∧
    "No room IDs to process." ∈ (mainRun artifact completed outcome db).log := by
  simp [mainRun, h]

/-- Witness for C7 (amended) at a concrete empty artifact. -/
theorem c7_witness :
    (mainRun (.parsed []) [] (fun _ => .jsonDecodeError) none).fetchTasks = 0 ∧
    (mainRun (.parsed []) [] (fun _ => .jsonDecodeError) none).storeInvoked = false ∧
    (mainRun (.parsed []) [] (fun _ => .jsonDecodeError) none).db = none ∧
    "No room IDs to process."
      ∈ (mainRun (.parsed []) [] (fun _ => .jsonDecodeError) none).log :=
  c7_empty_directory_no_mutation (.parsed []) [] (fun _ => .jsonDecodeError) none rfl

/-- C8: every record of the accumulated batch carries the id of some RoomRef
of the room list loaded in the same run (the fetcher tags each record with
the queried id and the orchestrator only submits ids from that list); the
rows the store prepares from the batch satisfy the same invariant, and when
the batch is non-empty so does every row left in the rebuilt table. -/
theorem c8_room_id_invariant (rooms completed : List RoomRef)
    (outcome : Nat → FetchOutcome) (db : DbState)
    (hperm : completed.Perm rooms) :
    (∀ r ∈ (collectAvailability outcome completed).1,
      ∃ room ∈ rooms, r.room_id = room.id) ∧
    (∀ row ∈ (coerceRecords (collectAvailability outcome completed).1).1,
      ∃ room ∈ rooms, row.room_id = room.id) ∧
    ((collectAvailability outcome completed).1 ≠ [] →
      ∀ row ∈ rowsOf (fetch_all_rooms_availability completed outcome db).1,
        ∃ room ∈ rooms, row.room_id = room.id) := by
  have hbatch : ∀ r ∈ (collectAvailability outcome completed).1,
      ∃ room ∈ rooms, r.room_id = room.id := by
    intro r hr
    obtain ⟨room, hroom, hrf⟩ := collect_mem outcome completed r hr
    exact ⟨room, hperm.subset hroom, fetch_room_id room.id (outcome room.id) r hrf⟩
  have hrows : ∀ row ∈ (coerceRecords (collectAvailability outcome completed).1).1,
      ∃ room ∈ rooms, row.room_id = room.id := by
    intro row hrow
    rw [coerceRecords_fst] at hrow
    obtain ⟨item, hitem, hok⟩ := List.mem_filterMap.mp hrow
    have hok2 := except_toOption_eq_some _ _ hok
    obtain ⟨room, hroom, hid⟩ := hbatch item hitem
    exact ⟨room, hroom, (coerceItem_room_id item row hok2).trans hid⟩
  refine ⟨hbatch, hrows, ?_⟩
  intro hne row hrow
  have hb := isEmpty_false_of_ne_nil _ hne
  have hfa : (fetch_all_rooms_availability completed outcome db).1
      = (store_availability_to_db (collectAvailability outcome completed).1 db).1 := rfl
  rw [hfa, store_rows_eq _ db hb, rowsOf_some] at hrow
  exact hrows row hrow

/-- Witness for C8 at a concrete one-room run. -/
theorem c8_witness :
    let room : RoomRef := { id := 5, name := "ESJ 0101" }
    let data : AvailData :=
      { subjects := some
          [ { item_date := some "2024-11-14",
              items := some [⟨some "CS101", some "9.5", some "10", some "2", some "A1"⟩] } ] }
    let outcome : Nat → FetchOutcome := fun _ => .success data
    (∀ r ∈ (collectAvailability outcome [room]).1,
      ∃ room2 ∈ [room], r.room_id = room2.id) ∧
    (∀ row ∈ (coerceRecords (collectAvailability outcome [room]).1).1,
      ∃ room2 ∈ [room], row.room_id = room2.id) ∧
    ((collectAvailability outcome [room]).1 ≠ [] →
      ∀ row ∈ rowsOf (fetch_all_rooms_availability [room] outcome none).1,
        ∃ room2 ∈ [room], row.room_id = room2.id) :=
  c8_room_id_invariant [_] [_] _ none (List.Perm.refl _)

/-- C9: a non-empty batch all of whose records fail coercion still leaves
the `room_availability` table dropped and recreated empty, whatever the
prior database state, and logs "No records to insert." — storage is mutated
even though nothing is inserted, unlike the empty-batch case, which leaves
any prior state untouched. -/
theorem c9_all_fail_still_recreates_table (batch : List AvailabilityRecord)
    (db db2 : DbState) (hne : batch ≠ [])
    (hall : (coerceRecords batch).1 = []) :
    (store_availability_to_db batch db).1 = some [] ∧
    "No records to insert." ∈ (store_availability_to_db batch db).2 ∧
    (store_availability_to_db [] db2).1 = db2 := by
  have hb := isEmpty_false_of_ne_nil batch hne
  refine ⟨?_, ?_, rfl⟩
  · rw [store_rows_eq batch db hb, hall]
  · unfold store_availability_to_db
    rw [hb]
    simp [hall]

/-- Witness for C9 at a concrete batch whose only record fails coercion,
against a database holding one stale row. -/
theorem c9_witness :
    let bad : AvailabilityRecord :=
      { room_id := 101, date := "2024-11-14", event_name := "CS101",
        time_start := "abc", time_end := "N/A", status := "N/A",
        additional_details := "A1" }
    let staleRow : Row :=
      { room_id := 7, date := "old", event_name := "old",
        time_start := none, time_end := none, status := none,
        additional_details := "old" }
    (store_availability_to_db [bad] (some [staleRow])).1 = some [] ∧
    "No records to insert." ∈ (store_availability_to_db [bad] (some [staleRow])).2 ∧
    (store_availability_to_db [] (some [staleRow])).1 = some [staleRow] :=
  c9_all_fail_still_recreates_table [_] (some [_]) (some [_])
    (fun h => List.noConfusion h) rfl

theorem recordsOfSubject_subset (space_id : Nat) (l : List Subject)
    (subject : Subject) (hsub : subject ∈ l) :
    ∀ r ∈ recordsOfSubject space_id subject, r ∈ recordsOfData space_id l := by
  induction l with
  | nil => simp at hsub
  | cons s rest ih =>
    intro r hr
    rcases List.mem_cons.mp hsub with rfl | hm
    · exact List.mem_append_left _ hr
    · exact List.mem_append_right _ (ih hm r hr)

/-- C10: every record built from a subject whose `item_date` key is absent
carries the empty string as its date — not the sentinel "N/A", and (the
`date` field being of type `String`) not null — and each such record is part
of the fetcher's output for the containing response. -/
theorem c10_missing_date_is_empty_string (space_id : Nat) (data : AvailData)
    (subject : Subject) (hsub : subject ∈ data.subjects.getD [])
    (hdate : subject.item_date = none) :
    ∀ r ∈ recordsOfSubject space_id subject,
      r.date = "" ∧ r.date ≠ "N/A" ∧
      r ∈ (fetch_single_room_availability space_id (.success data)).1 := by
  intro r hr
  have hd : r.date = "" := by
    simp only [recordsOfSubject, List.mem_map] at hr
    obtain ⟨item, -, rfl⟩ := hr
    simp [hdate]
  refine ⟨hd, ?_, recordsOfSubject_subset space_id _ subject hsub r hr⟩
  rw [hd]
  decide

/-- Witness for C10 at a concrete response whose only subject lacks
`item_date`. -/
theorem c10_witness :
    let subject : Subject :=
      { item_date := none,
        items := some [⟨some "CS101", some "9.5", some "10", some "2", some "A1"⟩] }
    let data : AvailData := { subjects := some [subject] }
    ∀ r ∈ recordsOfSubject 101 subject,
      r.date = "" ∧ r.date ≠ "N/A" ∧
      r ∈ (fetch_single_room_availability 101 (.success data)).1 :=
  c10_missing_date_is_empty_string 101 _ _ (List.mem_singleton.mpr rfl) rfl

end Scrape
